import Mathlib

/-!
Verification of the `pmc.catch` scoped exception guard
(`src/pmc/catch/core.py`, `counters.py`, `exceptions.py`).

The development shallowly embeds the Python code: exception instances
become a structure over a finite kind enumeration carrying the Python
class hierarchy, the `catcher` object's instance attributes become a
structure, and the context-manager protocol (`__enter__`, `__exit__`,
the `with` statement, the decorator wrapper produced by `__call__`)
becomes explicit state-passing functions over the local counter, the
process-wide global counter, and an accumulated log.
-/

namespace PmcCatch

/-- Python exception classes relevant to `pmc.catch`: the builtins
checked by `_handle_exception`, the package's own `Exit`/`Abort`
(`exceptions.py`), and the click signals named in the default
transparent tuple. -/
inductive ExcKind where
  | exception
  | warning
  | runtimeError
  | stopIteration
  | systemExit
  | pmcExit
  | pmcAbort
  | clickAbort
  | clickExit
  | keyboardInterrupt
  | keyError
  | attributeError
deriving DecidableEq, Repr

/-- Immediate superclass in the Python class hierarchy.
`exceptions.Exit` subclasses `SystemExit`; `exceptions.Abort`
subclasses `RuntimeError`; click's `Abort`/`Exit` derive
`RuntimeError`; `SystemExit` and `KeyboardInterrupt` derive
`BaseException` directly (modelled as roots here, since the code
never tests against `Exception`/`BaseException` themselves). -/
def parentOf : ExcKind → Option ExcKind
  | .exception => none
  | .warning => some .exception
  | .runtimeError => some .exception
  | .stopIteration => some .exception
  | .systemExit => none
  | .pmcExit => some .systemExit
  | .pmcAbort => some .runtimeError
  | .clickAbort => some .runtimeError
  | .clickExit => some .runtimeError
  | .keyboardInterrupt => none
  | .keyError => some .exception
  | .attributeError => some .exception

/-- Reflexive-transitive walk up the superclass chain, with fuel
(the hierarchy has depth at most three). -/
def isSubclassAux : Nat → ExcKind → ExcKind → Bool
  | 0, _, _ => false
  | n + 1, k, t =>
    k = t ||
      match parentOf k with
      | some p => isSubclassAux n p t
      | none => false

def isSubclass (k t : ExcKind) : Bool :=
  isSubclassAux 4 k t

/-- A Python exception instance: its class, the exit-code payload
(`SystemExit.code`), its `str()` message, and an identity tag so that
"the identical condition object" is expressible. -/
structure Exc where
  kind : ExcKind
  code : Int
  msg : String
  uid : Nat
deriving DecidableEq, Repr

/-- `isinstance(e, T)`. -/
def isInstance (e : Exc) (t : ExcKind) : Bool :=
  isSubclass e.kind t

/-- `isinstance(e, (T1, ..., Tn))`. -/
def isInstanceList (e : Exc) (ts : List ExcKind) : Bool :=
  ts.any (isInstance e)

/-- The tuple assigned to `self._reraise_types` when the
`reraise_types` argument is `None` (core.py lines 132-141). -/
def default_reraise_types : List ExcKind :=
  [.clickAbort, .clickExit, .pmcExit, .stopIteration,
   .runtimeError, .systemExit, .keyboardInterrupt]

/-- `exceptions.Exit(code)` constructed inside `_handle_exception`. -/
def mkExit (code : Int) : Exc :=
  ⟨.pmcExit, code, "", 1000⟩

/-- The `AttributeError` Python raises when `self._reraise_types` was
never assigned (see `catcher_init` below). -/
def attrErrorExc : Exc :=
  ⟨.attributeError, 0, "catcher object has no attribute _reraise_types", 1001⟩

/-- `RuntimeError` raised by `__enter__` on re-entry. -/
def cannotEnterExc : Exc :=
  ⟨.runtimeError, 0, "Cannot enter catcher twice.", 1002⟩

/-- `RuntimeError` raised by `__exit__` without a prior `__enter__`. -/
def cannotExitExc : Exc :=
  ⟨.runtimeError, 0, "Cannot exit catcher without entering first.", 1003⟩

/-- A value returned by a formatter: a plain string or an iterable of
strings, as distinguished by `catcher._list`. -/
inductive PyMsg where
  | str (s : String)
  | list (ss : List String)

/-- `catcher._list` (core.py lines 209-214): wrap a string, pass an
iterable through. -/
def list_ : PyMsg → List String
  | .str s => [s]
  | .list ss => ss

/-- `ExceptionCounter` (counters.py): a mutable pair of counts. -/
structure ExceptionCounter where
  errors_count : Nat
  warnings_count : Nat
deriving DecidableEq, Repr

def counter0 : ExceptionCounter := ⟨0, 0⟩

inductive LogLevel where
  | info
  | warning
  | error
  | fatal
deriving DecidableEq, Repr

abbrev LogMsg := LogLevel × String

/-- Constructor arguments of `catcher.__init__` (defaults as in the
source). `post_handler` is not modelled: the claims under study
configure none, and with `post_handler=None` the call site
`_call_post_handler` is a no-op. `showType` renders the source's
`type` argument. -/
structure InitArgs where
  formatter : Option (Exc → PyMsg)
  enter_message : Option String
  exit_message : Option String
  report_counts : Bool
  on_errors_raise : Option Exc
  reraise : Bool
  showType : Bool
  reraise_types : Option (List ExcKind)

def defaultArgs : InitArgs :=
  ⟨none, none, none, false, none, false, false, none⟩

/-- Instance attributes of a `catcher` object.
`_reraise_types = none` models the attribute being absent, and
`_exception_counter = none` models the per-activation counter not yet
created (before `__enter__` the name resolves to the class attribute,
i.e. the global counter). -/
structure catcher where
  _formatter : Option (Exc → PyMsg)
  _enter_message : Option String
  _exit_message : Option String
  _on_errors_raise : Option Exc
  _report_error_counts : Bool
  _reraise : Bool
  _type : Bool
  _exception : Option Exc
  _entered : Bool
  _reraise_types : Option (List ExcKind)
  _exception_counter : Option ExceptionCounter

/-- `catcher.__init__` (core.py lines 98-142). Note the source only
assigns `self._reraise_types` inside `if reraise_types is None:`;
when the caller supplies an explicit `reraise_types` there is no
`else` branch, so the instance attribute is never created. -/
def catcher_init (a : InitArgs) : catcher :=
  { _formatter := a.formatter
    _enter_message := a.enter_message
    _exit_message := a.exit_message
    _on_errors_raise := a.on_errors_raise
    _report_error_counts := a.report_counts
    _reraise := a.reraise
    _type := a.showType
    _exception := none
    _entered := false
    _reraise_types :=
      match a.reraise_types with
      | none => some default_reraise_types
      | some _ => none
    _exception_counter := none }

/-- `catcher.counts` read on an instance: the instance attribute if it
exists, otherwise Python attribute lookup falls back to the class
attribute, i.e. the global counter. -/
def counts (c : catcher) (g : ExceptionCounter) : Nat × Nat :=
  match c._exception_counter with
  | some k => (k.errors_count, k.warnings_count)
  | none => (g.errors_count, g.warnings_count)

/-- The message of the decorated-with-location rendering when
`type=True`. The traceback file name and line number are outside this
model; only the shape `<<repr(e)>> [...]` is kept. No claim under
study inspects this string. -/
def typeMessage (e : Exc) : String :=
  "<<" ++ e.msg ++ ">>"

/-- `catcher._format_exception` (core.py lines 301-304). -/
def format_exception (c : catcher) (e : Exc) : PyMsg :=
  match c._formatter with
  | some f => f e
  | none => .str e.msg

/-- The `_messages` local of `_handle_exception` (lines 244-248). -/
def messagesFor (c : catcher) (e : Exc) : List String :=
  list_ (if c._type then .str (typeMessage e) else format_exception c e)

def kbd_interrupt_msg : String :=
  "Keyboard interrupt was received. Aborting ..."

/-- The count-report line of `_report_on_exit` (lines 291-294). -/
def countMsg (n : Nat) : String :=
  "encountered " ++ toString n ++ " total error" ++
    (if n ≠ 1 then "s" else "") ++ "."

/-- Result of `_handle_exception`: updated local and global counters,
emitted log, and the exception it raised (if any). When `raised` is
`some`, the trailing merge into the global counter was not reached. -/
structure HandleOut where
  localC : ExceptionCounter
  globalC : ExceptionCounter
  logs : List LogMsg
  raised : Option Exc
deriving Repr

/-- `catcher._handle_exception` (core.py lines 239-274), branch for
branch. Accessing `self._reraise_types` when the attribute is absent
raises `AttributeError`. -/
def handle_exception (c : catcher) (lc g : ExceptionCounter) (e : Exc) :
    HandleOut :=
  let msgs := messagesFor c e
  if isInstance e .keyboardInterrupt then
    ⟨lc, g, [(.fatal, kbd_interrupt_msg)], some (mkExit 1)⟩
  else if isInstance e .pmcAbort then
    ⟨lc, g, [(.fatal, e.msg)], some (mkExit (-1))⟩
  else
    match c._reraise_types with
    | none => ⟨lc, g, [], some attrErrorExc⟩
    | some ts =>
      if isInstanceList e ts then
        ⟨lc, g, [], some e⟩
      else if isInstance e .warning then
        let l2 : ExceptionCounter :=
          { lc with warnings_count := lc.warnings_count + msgs.length }
        ⟨l2,
         ⟨g.errors_count + l2.errors_count,
          g.warnings_count + l2.warnings_count⟩,
         msgs.map (fun m => (.warning, m)), none⟩
      else
        let l2 : ExceptionCounter :=
          { lc with errors_count := lc.errors_count + msgs.length }
        ⟨l2,
         ⟨g.errors_count + l2.errors_count,
          g.warnings_count + l2.warnings_count⟩,
         msgs.map (fun m => (.error, m)), none⟩

/-- `catcher._report_on_exit` (core.py lines 280-294); both checks
read the class-level, i.e. global, error count. The local-count line
is absent: the source has it commented out. -/
def report_on_exit (c : catcher) (g : ExceptionCounter) : List LogMsg :=
  (match c._exit_message with
   | some m => if g.errors_count ≠ 0 then [(.info, m)] else []
   | none => []) ++
  (if c._report_error_counts then [(.info, countMsg g.errors_count)] else [])

/-- `catcher._raise_on_errors` (core.py lines 296-299): the raised
payload, if any. -/
def raise_on_errors (c : catcher) (g : ExceptionCounter) : Option Exc :=
  if g.errors_count ≠ 0 then c._on_errors_raise else none

/-- What the caller of the protected scope observes after `__exit__`:
normal completion, or a propagating exception. -/
inductive Outcome where
  | ok
  | exc (e : Exc)
deriving DecidableEq, Repr

structure ExitResult where
  ctx : catcher
  globalC : ExceptionCounter
  logs : List LogMsg
  outcome : Outcome

/-- The `try` block of `__exit__` (core.py lines 194-197): nothing
happens without a condition, otherwise `_handle_exception` runs on
the per-activation counter (which exists after `__enter__`). -/
def exit_core (c : catcher) (g : ExceptionCounter) (e? : Option Exc) :
    HandleOut :=
  match e? with
  | none => ⟨c._exception_counter.getD counter0, g, [], none⟩
  | some e => handle_exception c (c._exception_counter.getD counter0) g e

/-- `catcher.__exit__` (core.py lines 186-207). The `finally` block
always runs `_report_on_exit` and `_raise_on_errors`; a raise there
replaces any in-flight exception. Otherwise an exception raised by
`_handle_exception` propagates; otherwise the return value
`None if self._reraise else True` decides whether the original
condition continues to propagate. -/
def catcher_exit (c : catcher) (g : ExceptionCounter) (e? : Option Exc) :
    ExitResult :=
  if c._entered = false then
    ⟨c, g, [], .exc cannotExitExc⟩
  else
    let c1 := { c with _exception := e? }
    let h : HandleOut := exit_core c1 g e?
    let c2 := { c1 with _exception_counter := some h.localC }
    let rlogs := report_on_exit c2 h.globalC
    let fin := raise_on_errors c2 h.globalC
    let outcome : Outcome :=
      match fin with
      | some x => .exc x
      | none =>
        match h.raised with
        | some ex => .exc ex
        | none =>
          match e? with
          | none => .ok
          | some e => if c2._reraise then .exc e else .ok
    ⟨c2, h.globalC, h.logs ++ rlogs, outcome⟩

/-- `catcher.__enter__` (core.py lines 172-184): fails on re-entry,
otherwise allocates a fresh per-activation counter and optionally
logs the enter message. `_entered` is never reset afterwards. -/
def catcher_enter (c : catcher) :
    Except Exc (catcher × List LogMsg) :=
  if c._entered then
    .error cannotEnterExc
  else
    .ok ({ c with _entered := true, _exception_counter := some counter0 },
      match c._enter_message with
      | some m => [(.info, m)]
      | none => [])

/-- What a `with`-statement body produced: the global counter and logs
after running it, plus the exception escaping it, if any. -/
structure BodyOut where
  globalC : ExceptionCounter
  logs : List LogMsg
  exc : Option Exc

structure GuardOut where
  ctx : catcher
  globalC : ExceptionCounter
  logs : List LogMsg
  outcome : Outcome

/-- `with catcher(args) as ctx: body` — construct, enter, run the
body, exit. An exception from `__enter__` propagates without running
the body or `__exit__`. -/
def runGuard (a : InitArgs) (g : ExceptionCounter)
    (body : catcher → ExceptionCounter → BodyOut) : GuardOut :=
  let c := catcher_init a
  match catcher_enter c with
  | .error ex => ⟨c, g, [], .exc ex⟩
  | .ok (c1, elogs) =>
    let b := body c1 g
    let r := catcher_exit c1 b.globalC b.exc
    ⟨r.ctx, r.globalC, elogs ++ b.logs ++ r.logs, r.outcome⟩

/-- `with catcher(args): raise e` (or `pass` when `e?` is `none`). -/
def runWith (a : InitArgs) (g : ExceptionCounter) (e? : Option Exc) :
    GuardOut :=
  runGuard a g (fun _ g1 => ⟨g1, [], e?⟩)

/-- Turn an inner guard's outcome back into the exception seen by the
enclosing body. -/
def propagate : Outcome → Option Exc
  | .ok => none
  | .exc x => some x

/-- Two nested guards with a condition raised inside the inner one. -/
def runNested (outerA innerA : InitArgs) (g : ExceptionCounter)
    (e : Exc) : GuardOut :=
  runGuard outerA g (fun _ g1 =>
    let r := runWith innerA g1 (some e)
    ⟨r.globalC, r.logs, propagate r.outcome⟩)

/-- The wrapper object returned by `catcher.__call__` (core.py lines
155-170): it closes over the `catcher` instance (`parent`) and gains
a `_context` attribute on the first successful entry. Because the
`with` body assigns `self._context = ctx` where `ctx` is `parent`
itself, the exposed context is the (mutated) parent. -/
structure Inner where
  parent : catcher
  has_context : Bool

/-- `Inner.__call__`: run the wrapped function inside
`with parent as ctx`. `funcExc` is the exception the wrapped function
raises, if any. -/
def wrapperCall (w : Inner) (g : ExceptionCounter) (funcExc : Option Exc) :
    Inner × GuardOut :=
  match catcher_enter w.parent with
  | .error ex => (w, ⟨w.parent, g, [], .exc ex⟩)
  | .ok (c1, elogs) =>
    let r := catcher_exit c1 g funcExc
    (⟨r.ctx, true⟩, ⟨r.ctx, r.globalC, elogs ++ r.logs, r.outcome⟩)

/-- `Inner.context`. -/
def context (w : Inner) : Option catcher :=
  if w.has_context then some w.parent else none

def simpleError : Exc := ⟨.exception, 0, "Just an exception", 1⟩

def simpleWarning : Exc := ⟨.warning, 0, "Just a warning", 2⟩

def sysExitM5 : Exc := ⟨.systemExit, -5, "", 3⟩

/-- N fresh default guards run one after the other, each absorbing one
error-kind condition. -/
def runNDefaultErrors : Nat → ExceptionCounter → ExceptionCounter
  | 0, g => g
  | n + 1, g => runNDefaultErrors n (runWith defaultArgs g (some simpleError)).globalC

/-- The entered state produced by `__enter__` on a fresh instance. -/
def enteredOf (a : InitArgs) : catcher :=
  { catcher_init a with _entered := true, _exception_counter := some counter0 }

def enterLogs (a : InitArgs) : List LogMsg :=
  match a.enter_message with
  | some m => [(.info, m)]
  | none => []

def keyErrorExc : Exc := ⟨.keyError, 0, "boom", 12⟩

def explicitTypesArgs : InitArgs :=
  { defaultArgs with reraise_types := some [ExcKind.keyError] }

def seM1 : Exc := ⟨.systemExit, -1, "", 10⟩

def seM2 : Exc := ⟨.systemExit, -2, "", 11⟩

def outerXArgs (x : Exc) : InitArgs := { defaultArgs with on_errors_raise := some x }

def reraiseArgs : InitArgs := { defaultArgs with reraise := true }

def kiExc : Exc := ⟨.keyboardInterrupt, 0, "", 4⟩

/-- The wrapper obtained by decorating a function with a fresh
default `catcher`. -/
def decorW0 : Inner := ⟨catcher_init defaultArgs, false⟩

def errOne : Exc := ⟨.exception, 0, "err1", 21⟩

def errTwo : Exc := ⟨.exception, 0, "err2", 22⟩

def warnOne : Exc := ⟨.warning, 0, "warn1", 23⟩

def rcArgs : InitArgs := { defaultArgs with report_counts := true }

/-- The spec's report-counts scenario: three nested guards, the
innermost (unflagged) absorbing an error, the middle (flagged)
absorbing a second error raised after the inner guard, the outer
(flagged) absorbing a warning raised after the middle guard. -/
def scenario9 : GuardOut :=
  runGuard rcArgs counter0 (fun _ g =>
    let r2 := runGuard rcArgs g (fun _ g2 =>
      let r3 := runWith defaultArgs g2 (some errOne)
      match propagate r3.outcome with
      | some ex => ⟨r3.globalC, r3.logs, some ex⟩
      | none => ⟨r3.globalC, r3.logs, some errTwo⟩)
    match propagate r2.outcome with
    | some ex => ⟨r2.globalC, r2.logs, some ex⟩
    | none => ⟨r2.globalC, r2.logs, some warnOne⟩)

/-- Whether a log line is a count-report line of `_report_on_exit`. -/
def countLine (m : LogMsg) : Bool :=
  List.isPrefixOf "encountered".data m.2.data

def fmtListArgs (ss : List String) : InitArgs :=
  { defaultArgs with formatter := some (fun _ => PyMsg.list ss) }

/-- The global counter never decreases across `_handle_exception`. -/
theorem handle_exception_global_mono (c : catcher) (lc g : ExceptionCounter)
    (e : Exc) :
    g.errors_count ≤ (handle_exception c lc g e).globalC.errors_count ∧
    g.warnings_count ≤ (handle_exception c lc g e).globalC.warnings_count := by
  unfold handle_exception
  by_cases h1 : isInstance e .keyboardInterrupt
  · simp [h1]
  by_cases h2 : isInstance e .pmcAbort
  · simp [h1, h2]
  cases hr : c._reraise_types with
  | none => simp [h1, h2, hr]
  | some ts =>
    by_cases h3 : isInstanceList e ts
    · simp [h1, h2, hr, h3]
    by_cases h4 : isInstance e .warning
    · simp [h1, h2, hr, h3, h4]
    · simp [h1, h2, hr, h3, h4]

/-- The global counter never decreases across the `try` block. -/
theorem exit_core_global_mono (c : catcher) (g : ExceptionCounter)
    (e? : Option Exc) :
    g.errors_count ≤ (exit_core c g e?).globalC.errors_count ∧
    g.warnings_count ≤ (exit_core c g e?).globalC.warnings_count := by
  cases e? with
  | none => simp [exit_core]
  | some e => simpa [exit_core] using handle_exception_global_mono c _ g e

/-- The global counter never decreases across `__exit__`. -/
theorem catcher_exit_global_mono (c : catcher) (g : ExceptionCounter)
    (e? : Option Exc) :
    g.errors_count ≤ (catcher_exit c g e?).globalC.errors_count ∧
    g.warnings_count ≤ (catcher_exit c g e?).globalC.warnings_count := by
  unfold catcher_exit
  split
  · simp
  · simpa using exit_core_global_mono { c with _exception := e? } g e?

/-- `__exit__` records the incoming condition in `self._exception`. -/
theorem catcher_exit_sets_exception (c : catcher) (g : ExceptionCounter)
    (e? : Option Exc) (hc : c._entered = true) :
    (catcher_exit c g e?).ctx._exception = e? := by
  unfold catcher_exit
  simp [hc]

/-- When the global error count is already non-zero and
`on_errors_raise` is configured, `__exit__` always ends with that
payload in flight: `_raise_on_errors` runs in the `finally` block and
its raise replaces anything else. -/
theorem catcher_exit_raises_payload (c : catcher) (g : ExceptionCounter)
    (e? : Option Exc) (x : Exc) (hc : c._entered = true)
    (hx : c._on_errors_raise = some x) (hg : g.errors_count ≠ 0) :
    (catcher_exit c g e?).outcome = .exc x := by
  obtain ⟨fm, em, xm, oer, rc, rr, ty, ex0, ent, rts, ecnt⟩ := c
  simp only at hc hx
  subst hc hx
  unfold catcher_exit
  rw [if_neg (by simp)]
  have hne : (exit_core
      { _formatter := fm, _enter_message := em, _exit_message := xm,
        _on_errors_raise := some x, _report_error_counts := rc,
        _reraise := rr, _type := ty, _exception := e?, _entered := true,
        _reraise_types := rts, _exception_counter := ecnt } g e?).globalC.errors_count ≠ 0 := by
    have := (exit_core_global_mono
      { _formatter := fm, _enter_message := em, _exit_message := xm,
        _on_errors_raise := some x, _report_error_counts := rc,
        _reraise := rr, _type := ty, _exception := e?, _entered := true,
        _reraise_types := rts, _exception_counter := ecnt } g e?).1
    omega
  simp [raise_on_errors, hne]

/-- C1, as stated, is false: a `SystemExit` raised inside a fresh
default guard is in the default transparent tuple and propagates to
the caller instead of being absorbed. -/
theorem spec_c1_counterexample :
    (runWith defaultArgs counter0 (some sysExitM5)).outcome = .exc sysExitM5 ∧
    (runWith defaultArgs counter0 (some sysExitM5)).outcome ≠ .ok := by
  constructor <;> decide

/-- C1 (amended): for every condition outside the default transparent
tuple (hence classified warning or error), a fresh default guard
absorbs the condition — the caller observes no propagating
condition — and afterwards the guard's `exception` equals the raised
value. -/
theorem spec_c1 (e : Exc) (g : ExceptionCounter)
    (h : isInstanceList e default_reraise_types = false) :
    (runWith defaultArgs g (some e)).outcome = Outcome.ok ∧
    (runWith defaultArgs g (some e)).ctx._exception = some e := by
  rcases e with ⟨k, code, msg, uid⟩
  cases k <;> simp_all [runWith, runGuard, catcher_init, catcher_enter, catcher_exit,
    exit_core, handle_exception, report_on_exit, raise_on_errors, messagesFor,
    format_exception, list_, isInstanceList, isInstance, isSubclass, isSubclassAux,
    parentOf, default_reraise_types, defaultArgs, counter0]

theorem spec_c1_witness :
    isInstanceList simpleError default_reraise_types = false ∧
    ((runWith defaultArgs counter0 (some simpleError)).outcome = Outcome.ok ∧
     (runWith defaultArgs counter0 (some simpleError)).ctx._exception = some simpleError) :=
  ⟨by decide, spec_c1 simpleError counter0 (by decide)⟩

theorem runWith_default_error_step (g : ExceptionCounter) :
    (runWith defaultArgs g (some simpleError)).globalC =
      ⟨g.errors_count + 1, g.warnings_count⟩ := by
  simp [runWith, runGuard, catcher_init, catcher_enter, catcher_exit, exit_core,
    handle_exception, messagesFor, format_exception, list_, isInstanceList,
    isInstance, isSubclass, isSubclassAux, parentOf, default_reraise_types,
    defaultArgs, counter0, simpleError]

theorem runNDefaultErrors_eq (n : Nat) (g : ExceptionCounter) :
    (runNDefaultErrors n g).errors_count = g.errors_count + n := by
  induction n generalizing g with
  | zero => simp [runNDefaultErrors]
  | succ n ih =>
    rw [runNDefaultErrors, runWith_default_error_step, ih]
    simp
    omega

/-- C2: the global counter is monotonically non-decreasing across any
deactivation; N independent default-guard activations each absorbing
one error leave the global error count at exactly N; and one error
plus one warning through independent guards yields a global `(1, 1)`. -/
theorem spec_c2 :
    (∀ (c : catcher) (g : ExceptionCounter) (e? : Option Exc),
      g.errors_count ≤ (catcher_exit c g e?).globalC.errors_count ∧
      g.warnings_count ≤ (catcher_exit c g e?).globalC.warnings_count) ∧
    (∀ n : Nat, (runNDefaultErrors n counter0).errors_count = n) ∧
    (runWith defaultArgs
        (runWith defaultArgs counter0 (some simpleError)).globalC
        (some simpleWarning)).globalC = ⟨1, 1⟩ := by
  refine ⟨catcher_exit_global_mono, ?_, ?_⟩
  · intro n
    rw [runNDefaultErrors_eq]
    simp [counter0]
  · decide

theorem catcher_enter_init (a : InitArgs) :
    catcher_enter (catcher_init a) = .ok (enteredOf a, enterLogs a) := rfl

theorem runGuard_eq (a : InitArgs) (g : ExceptionCounter)
    (body : catcher → ExceptionCounter → BodyOut) :
    runGuard a g body =
      ⟨(catcher_exit (enteredOf a) (body (enteredOf a) g).globalC (body (enteredOf a) g).exc).ctx,
       (catcher_exit (enteredOf a) (body (enteredOf a) g).globalC (body (enteredOf a) g).exc).globalC,
       enterLogs a ++ (body (enteredOf a) g).logs ++
         (catcher_exit (enteredOf a) (body (enteredOf a) g).globalC (body (enteredOf a) g).exc).logs,
       (catcher_exit (enteredOf a) (body (enteredOf a) g).globalC (body (enteredOf a) g).exc).outcome⟩ := rfl

/-- C3 names a code bug: `__init__` documents that a supplied
`reraise_types` is transparently re-raised, but only the
`reraise_types is None` branch ever assigns `self._reraise_types`, so
with an explicit set the attribute is missing and
`_handle_exception`'s `isinstance(e, self._reraise_types)` raises
`AttributeError` — the `KeyError` is neither re-raised nor handled. -/
theorem spec_c3_code_bug :
    (catcher_init explicitTypesArgs)._reraise_types = none ∧
    (runWith explicitTypesArgs counter0 (some keyErrorExc)).outcome = .exc attrErrorExc ∧
    (runWith explicitTypesArgs counter0 (some keyErrorExc)).outcome ≠ .exc keyErrorExc ∧
    (runWith explicitTypesArgs counter0 (some keyErrorExc)).globalC = counter0 := by
  refine ⟨rfl, by decide, by decide, by decide⟩

/-- C4, as stated for every condition, is false: a warning-kind
condition raised inside the inner guard leaves the global error count
at zero, so neither Y nor X is raised and the caller observes normal
completion. -/
theorem spec_c4_counterexample :
    (runNested (outerXArgs seM1) (outerXArgs seM2) counter0 simpleWarning).outcome = .ok ∧
    (runNested (outerXArgs seM1) (outerXArgs seM2) counter0 simpleWarning).outcome ≠ .exc seM1 := by
  refine ⟨by decide, by decide⟩

/-- C4 (amended to error-kind conditions): with outer
`on_errors_raise=X` and inner `on_errors_raise=Y`, an error-kind
condition raised inside the inner guard makes the inner deactivation
raise Y; the outer guard records Y as its captured condition and
raises X, so the caller observes X. -/
theorem spec_c4 (e : Exc) (g : ExceptionCounter) (x y : Exc)
    (hnt : isInstanceList e default_reraise_types = false)
    (hnw : isInstance e ExcKind.warning = false) :
    (runWith (outerXArgs y) g (some e)).outcome = .exc y ∧
    (runNested (outerXArgs x) (outerXArgs y) g e).outcome = .exc x ∧
    (runNested (outerXArgs x) (outerXArgs y) g e).ctx._exception = some y := by
  have hinner :
      (runWith (outerXArgs y) g (some e)).outcome = .exc y ∧
      (runWith (outerXArgs y) g (some e)).globalC =
        ⟨g.errors_count + 1, g.warnings_count⟩ := by
    rcases e with ⟨k, code, msg, uid⟩
    cases k <;> simp_all [runWith, runGuard, catcher_init, catcher_enter, catcher_exit,
      exit_core, handle_exception, report_on_exit, raise_on_errors, messagesFor,
      format_exception, list_, isInstanceList, isInstance, isSubclass, isSubclassAux,
      parentOf, default_reraise_types, defaultArgs, outerXArgs, counter0]
  refine ⟨hinner.1, ?_, ?_⟩
  · rw [runNested, runGuard_eq]
    simp only [propagate, hinner.1, hinner.2]
    exact catcher_exit_raises_payload _ _ _ x rfl rfl (by simp)
  · rw [runNested, runGuard_eq]
    simp only [propagate, hinner.1, hinner.2]
    exact catcher_exit_sets_exception _ _ _ rfl

theorem spec_c4_witness :
    isInstanceList simpleError default_reraise_types = false ∧
    isInstance simpleError ExcKind.warning = false ∧
    ((runWith (outerXArgs seM2) counter0 (some simpleError)).outcome = .exc seM2 ∧
     (runNested (outerXArgs seM1) (outerXArgs seM2) counter0 simpleError).outcome = .exc seM1 ∧
     (runNested (outerXArgs seM1) (outerXArgs seM2) counter0 simpleError).ctx._exception = some seM2) :=
  ⟨by decide, by decide, spec_c4 simpleError counter0 seM1 seM2 (by decide) (by decide)⟩

/-- C5, as stated, is false: with blanket re-raise a caught
error-kind condition IS counted and logged before `__exit__` returns
`None` — the local counter reads `(1, 0)`, the global error count is
incremented, and the error message is logged. -/
theorem spec_c5_counterexample :
    (runWith reraiseArgs counter0 (some simpleError)).outcome = .exc simpleError ∧
    counts (runWith reraiseArgs counter0 (some simpleError)).ctx
      (runWith reraiseArgs counter0 (some simpleError)).globalC = (1, 0) ∧
    (runWith reraiseArgs counter0 (some simpleError)).globalC.errors_count = 1 ∧
    (runWith reraiseArgs counter0 (some simpleError)).logs =
      [(.error, "Just an exception")] := by
  refine ⟨by decide, by decide, by decide, by decide⟩

/-- C5 (amended): with blanket re-raise, a condition outside the
transparent set undergoes the full message/counter bookkeeping — it
is logged and the local and global counters are incremented exactly
as without `reraise` — and is then re-raised unchanged because
`__exit__` returns `None`. -/
theorem spec_c5 (e : Exc) (g : ExceptionCounter)
    (hnt : isInstanceList e default_reraise_types = false) :
    (runWith reraiseArgs g (some e)).outcome = .exc e ∧
    (isInstance e ExcKind.warning = false →
      counts (runWith reraiseArgs g (some e)).ctx
        (runWith reraiseArgs g (some e)).globalC = (1, 0) ∧
      (runWith reraiseArgs g (some e)).globalC.errors_count = g.errors_count + 1 ∧
      (runWith reraiseArgs g (some e)).logs = [(.error, e.msg)]) ∧
    (isInstance e ExcKind.warning = true →
      counts (runWith reraiseArgs g (some e)).ctx
        (runWith reraiseArgs g (some e)).globalC = (0, 1) ∧
      (runWith reraiseArgs g (some e)).globalC.warnings_count = g.warnings_count + 1 ∧
      (runWith reraiseArgs g (some e)).logs = [(.warning, e.msg)]) := by
  rcases e with ⟨k, code, msg, uid⟩
  cases k <;> simp_all [runWith, runGuard, catcher_init, catcher_enter, catcher_exit,
    exit_core, handle_exception, report_on_exit, raise_on_errors, messagesFor,
    format_exception, list_, isInstanceList, isInstance, isSubclass, isSubclassAux,
    parentOf, default_reraise_types, defaultArgs, reraiseArgs, counts, counter0]

theorem spec_c5_witness :
    isInstanceList simpleWarning default_reraise_types = false ∧
    ((runWith reraiseArgs counter0 (some simpleWarning)).outcome = .exc simpleWarning ∧
     (isInstance simpleWarning ExcKind.warning = false →
       counts (runWith reraiseArgs counter0 (some simpleWarning)).ctx
         (runWith reraiseArgs counter0 (some simpleWarning)).globalC = (1, 0) ∧
       (runWith reraiseArgs counter0 (some simpleWarning)).globalC.errors_count = 0 + 1 ∧
       (runWith reraiseArgs counter0 (some simpleWarning)).logs =
         [(.error, simpleWarning.msg)]) ∧
     (isInstance simpleWarning ExcKind.warning = true →
       counts (runWith reraiseArgs counter0 (some simpleWarning)).ctx
         (runWith reraiseArgs counter0 (some simpleWarning)).globalC = (0, 1) ∧
       (runWith reraiseArgs counter0 (some simpleWarning)).globalC.warnings_count = 0 + 1 ∧
       (runWith reraiseArgs counter0 (some simpleWarning)).logs =
         [(.warning, simpleWarning.msg)])) :=
  ⟨by decide, spec_c5 simpleWarning counter0 (by decide)⟩

/-- C6: with `reraise=true` both error-kind and warning-kind
conditions are re-raised unchanged — the identical condition value
reaches the caller — and the propagation is preserved through two
nested `reraise` guards. -/
theorem spec_c6 (e : Exc) (g : ExceptionCounter)
    (hnt : isInstanceList e default_reraise_types = false) :
    (runWith reraiseArgs g (some e)).outcome = .exc e ∧
    (runNested reraiseArgs reraiseArgs g e).outcome = .exc e := by
  rcases e with ⟨k, code, msg, uid⟩
  cases k <;> simp_all [runNested, runWith, runGuard, catcher_init, catcher_enter,
    catcher_exit, exit_core, handle_exception, report_on_exit, raise_on_errors,
    messagesFor, format_exception, list_, isInstanceList, isInstance, isSubclass,
    isSubclassAux, parentOf, default_reraise_types, defaultArgs, reraiseArgs,
    propagate, counter0]

theorem spec_c6_witness :
    isInstanceList simpleWarning default_reraise_types = false ∧
    ((runWith reraiseArgs counter0 (some simpleWarning)).outcome = .exc simpleWarning ∧
     (runNested reraiseArgs reraiseArgs counter0 simpleWarning).outcome = .exc simpleWarning) :=
  ⟨by decide, spec_c6 simpleWarning counter0 (by decide)⟩

/-- C7, as stated, is false in its exit-code clause: the conversion
target is `exceptions.Exit(1)` — the code is the positive 1, not a
negative value. -/
theorem spec_c7_counterexample :
    (runWith defaultArgs counter0 (some kiExc)).outcome = .exc (mkExit 1) ∧
    ¬ (mkExit 1).code < 0 := by
  refine ⟨by decide, by decide⟩

/-- C7 (amended): a caught `KeyboardInterrupt` logs exactly the fixed
message "Keyboard interrupt was received. Aborting ..." at the
highest severity and is unconditionally converted, before any other
policy in `_handle_exception`, into `exceptions.Exit(1)` — a
`SystemExit`-derived exit signal with the fixed positive code 1. -/
theorem spec_c7 :
    (∀ (c : catcher) (lc g : ExceptionCounter) (e : Exc),
      isInstance e ExcKind.keyboardInterrupt = true →
      handle_exception c lc g e =
        ⟨lc, g, [(.fatal, kbd_interrupt_msg)], some (mkExit 1)⟩) ∧
    (runWith defaultArgs counter0 (some kiExc)).outcome = .exc (mkExit 1) ∧
    (runWith defaultArgs counter0 (some kiExc)).logs =
      [(.fatal, kbd_interrupt_msg)] ∧
    (mkExit 1).kind = ExcKind.pmcExit ∧
    isInstance (mkExit 1) ExcKind.systemExit = true ∧
    (mkExit 1).code = 1 := by
  refine ⟨?_, by decide, by decide, rfl, by decide, rfl⟩
  intro c lc g e h
  simp [handle_exception, h]

theorem spec_c7_witness :
    isInstance kiExc ExcKind.keyboardInterrupt = true ∧
    handle_exception (catcher_init defaultArgs) counter0 counter0 kiExc =
      ⟨counter0, counter0, [(.fatal, kbd_interrupt_msg)], some (mkExit 1)⟩ :=
  ⟨by decide, spec_c7.1 (catcher_init defaultArgs) counter0 counter0 kiExc (by decide)⟩

/-- C8 names a code bug: the first invocation of the decorated
callable works and exposes the guard (counts `(0, 0)`, no exception),
but `__exit__` never resets `_entered`, so the second invocation's
re-entry of the same `catcher` instance raises
`RuntimeError("Cannot enter ... twice.")` instead of creating a
fresh activation. -/
theorem spec_c8_code_bug :
    (wrapperCall decorW0 counter0 none).2.outcome = Outcome.ok ∧
    (wrapperCall decorW0 counter0 none).1.has_context = true ∧
    (wrapperCall decorW0 counter0 none).1.parent._exception = none ∧
    counts (wrapperCall decorW0 counter0 none).1.parent
      (wrapperCall decorW0 counter0 none).2.globalC = (0, 0) ∧
    (wrapperCall decorW0 counter0 none).1.parent._entered = true ∧
    (wrapperCall (wrapperCall decorW0 counter0 none).1
      (wrapperCall decorW0 counter0 none).2.globalC none).2.outcome =
      Outcome.exc cannotEnterExc := by
  refine ⟨by decide, rfl, by decide, by decide, by decide, by decide⟩

/-- C9, as stated, is false: the two flagged guards produce two
count-report lines in total — one each, showing the cumulative global
error count — with no additional per-guard "local count" line (the
local-count report is commented out in `_report_on_exit`), so the
scenario yields 2 count lines, not the claimed 2 + 1. -/
theorem spec_c9_counterexample :
    (scenario9.logs.filter countLine).length = 2 ∧
    (scenario9.logs.filter countLine).length ≠ 3 ∧
    scenario9.globalC.errors_count = 2 := by
  refine ⟨by decide, by decide, by decide⟩

/-- C9 (amended): a guard with `report_counts=true` logs at
deactivation exactly one count line, reporting the cumulative global
error count; in the three-guard scenario the two flagged guards
produce one such line each, and the final line reports the true total
error count (2). -/
theorem spec_c9 :
    (∀ (c : catcher) (g : ExceptionCounter),
      c._report_error_counts = true → c._exit_message = none →
      report_on_exit c g = [(.info, countMsg g.errors_count)]) ∧
    scenario9.logs.filter countLine =
      [(.info, countMsg 2), (.info, countMsg 2)] ∧
    scenario9.logs.getLast? = some (.info, countMsg 2) := by
  refine ⟨?_, by decide, by decide⟩
  intro c g h1 h2
  simp [report_on_exit, h1, h2]

theorem spec_c9_witness :
    (catcher_init rcArgs)._report_error_counts = true ∧
    (catcher_init rcArgs)._exit_message = none ∧
    report_on_exit (catcher_init rcArgs) counter0 =
      [(.info, countMsg counter0.errors_count)] :=
  ⟨rfl, rfl, spec_c9.1 (catcher_init rcArgs) counter0 rfl rfl⟩

/-- C10: a configured formatter returning an iterable of N strings
makes deactivation log N separate messages and increment the
corresponding local counter (and the global mirror) by N; the default
formatter yields exactly one message and an increment of 1. -/
theorem spec_c10 (ss : List String) (e : Exc) (g : ExceptionCounter)
    (hnt : isInstanceList e default_reraise_types = false) :
    (isInstance e ExcKind.warning = false →
      (runWith (fmtListArgs ss) g (some e)).logs =
        ss.map (fun s => (LogLevel.error, s)) ∧
      counts (runWith (fmtListArgs ss) g (some e)).ctx
        (runWith (fmtListArgs ss) g (some e)).globalC = (ss.length, 0) ∧
      (runWith (fmtListArgs ss) g (some e)).globalC.errors_count =
        g.errors_count + ss.length) ∧
    (isInstance e ExcKind.warning = true →
      (runWith (fmtListArgs ss) g (some e)).logs =
        ss.map (fun s => (LogLevel.warning, s)) ∧
      counts (runWith (fmtListArgs ss) g (some e)).ctx
        (runWith (fmtListArgs ss) g (some e)).globalC = (0, ss.length) ∧
      (runWith (fmtListArgs ss) g (some e)).globalC.warnings_count =
        g.warnings_count + ss.length) ∧
    (isInstance e ExcKind.warning = false →
      counts (runWith defaultArgs g (some e)).ctx
        (runWith defaultArgs g (some e)).globalC = (1, 0)) ∧
    (isInstance e ExcKind.warning = true →
      counts (runWith defaultArgs g (some e)).ctx
        (runWith defaultArgs g (some e)).globalC = (0, 1)) := by
  rcases e with ⟨k, code, msg, uid⟩
  cases k <;> simp_all [runWith, runGuard, catcher_init, catcher_enter, catcher_exit,
    exit_core, handle_exception, report_on_exit, raise_on_errors, messagesFor,
    format_exception, list_, isInstanceList, isInstance, isSubclass, isSubclassAux,
    parentOf, default_reraise_types, defaultArgs, fmtListArgs, counts, counter0]

theorem spec_c10_witness :
    isInstanceList simpleError default_reraise_types = false ∧
    isInstance simpleError ExcKind.warning = false ∧
    ((runWith (fmtListArgs ["a", "b", "c"]) counter0 (some simpleError)).logs =
       (["a", "b", "c"] : List String).map (fun s => (LogLevel.error, s)) ∧
     counts (runWith (fmtListArgs ["a", "b", "c"]) counter0 (some simpleError)).ctx
       (runWith (fmtListArgs ["a", "b", "c"]) counter0 (some simpleError)).globalC =
       ((["a", "b", "c"] : List String).length, 0) ∧
     (runWith (fmtListArgs ["a", "b", "c"]) counter0 (some simpleError)).globalC.errors_count =
       counter0.errors_count + (["a", "b", "c"] : List String).length) :=
  ⟨by decide, by decide,
    (spec_c10 ["a", "b", "c"] simpleError counter0 (by decide)).1 (by decide)⟩

end PmcCatch
